import Mathlib

/-
Shallow embedding of the booking bot in `src/main.py` (class `BookingBot`).

The bot keeps three pieces of process-wide state:
  * `users_data`  : a Python dict mapping a user id (string) to a booking record,
  * `logs`        : a Python list of log entries (append-only),
  * `user_states` : a Python dict mapping a user id to a transient session state.

Python dicts are modelled as association lists in insertion order with unique
keys (`dictGet`, `dictPut`, `dictDel`).  Python unbounded ints are `Int`.
Wall-clock timestamps (`datetime.now()` inside `add_log_entry`) are I/O, so the
timestamp string is passed to every mutating operation as an explicit argument.
File persistence (`save_data` / `save_logs`) and Telegram message delivery are
I/O side effects with no influence on the in-memory state, so they are dropped;
the human-readable reply/notification texts are likewise presentation only.
Integer parsing of command arguments and free-text replies (`int(...)` with a
caught `ValueError`) happens at the transport edge; it is modelled by handing
the operations an already-parsed value or a parse-failure marker.
-/

namespace BookingBot

/-- One per-user booking record: a value of Python dict
`self.users_data[user_id]` (fields `username`, `full_name`, `sets`, `status`,
and the optional `sets_before_cancel` added by `process_cancel_booking`). -/
structure BookingRecord where
  username : String
  full_name : String
  sets : Int
  status : String
  sets_before_cancel : Option Int
deriving Repr, DecidableEq

/-- One element of `self.logs`, as built by `add_log_entry`. -/
structure LogEntry where
  timestamp : String
  user_id : String
  username : String
  full_name : String
  change : String
  total : Int
  status : String
deriving Repr, DecidableEq

/-- One value of the Python dict `self.user_states[user_id]`.  The `action`
key is always present; `username` / `full_name` are absent only for the
`reset_confirmation` session, which is modelled by `""`; the `sets` key is
present only for the `cancelling` session, modelled by `Option Int`. -/
structure SessionState where
  action : String
  username : String
  full_name : String
  sets : Option Int
deriving Repr, DecidableEq

/-- The in-memory state of a `BookingBot` instance:
`self.users_data`, `self.logs`, `self.user_states`. -/
structure BotState where
  users_data : List (String × BookingRecord)
  logs : List LogEntry
  user_states : List (String × SessionState)
deriving Repr, DecidableEq

/-- Outcome reported to the invoking user by a handler (the reply texts
themselves are presentation; only the branch taken matters). -/
inductive OpResult where
  /-- the operation completed and mutated the store -/
  | ok
  /-- the handler asked for a follow-up input (keyboard or free text) -/
  | prompted
  /-- rejected: non-positive quantity or would-go-negative edit -/
  | validationError
  /-- rejected: the supplied argument was not an integer (`ValueError`) -/
  | parseError
  /-- rejected: no active booking to edit or cancel -/
  | preconditionError
  /-- rejected: caller is not the configured admin -/
  | authError
  /-- rejected: no pending session for a resumed interaction -/
  | sessionExpired
  /-- rejected: broadcast target username not found -/
  | notFound
  /-- an uncaught exception reached the router's error handler -/
  | internalError
  /-- the input matched no branch and was silently dropped -/
  | ignored
deriving Repr, DecidableEq

/-- A command argument slot (`context.args`): absent, present but not an
integer (`int(...)` raises `ValueError`), or a parsed integer. -/
inductive ArgInput where
  | absent
  | invalid
  | value (n : Int)
deriving Repr, DecidableEq

/-- Python dict read `m.get(k)` / `m[k]` (insertion-ordered association list). -/
def dictGet {α : Type} (m : List (String × α)) (k : String) : Option α :=
  match m with
  | [] => none
  | (k', v') :: rest => if k' = k then some v' else dictGet rest k

/-- Python dict write `m[k] = v`: replace in place if the key is present,
otherwise append at the end (insertion order). -/
def dictPut {α : Type} (m : List (String × α)) (k : String) (v : α) : List (String × α) :=
  match m with
  | [] => [(k, v)]
  | (k', v') :: rest => if k' = k then (k', v) :: rest else (k', v') :: dictPut rest k v

/-- Python dict delete `del m[k]`.  On the duplicate-free lists that model a
Python dict this removes the unique entry with key `k` (it removes every
occurrence, which coincides on such lists). -/
def dictDel {α : Type} (m : List (String × α)) (k : String) : List (String × α) :=
  match m with
  | [] => []
  | (k', v') :: rest => if k' = k then dictDel rest k else (k', v') :: dictDel rest k

theorem dictGet_dictPut_self {α : Type} (m : List (String × α)) (k : String) (v : α) :
    dictGet (dictPut m k v) k = some v := by
  induction m with
  | nil => simp [dictPut, dictGet]
  | cons p rest ih =>
    obtain ⟨k', v'⟩ := p
    by_cases h : k' = k
    · simp [dictPut, dictGet, h]
    · simp [dictPut, dictGet, h, ih]

theorem dictGet_dictPut_ne {α : Type} (m : List (String × α)) (k k₂ : String) (v : α)
    (h : k ≠ k₂) : dictGet (dictPut m k v) k₂ = dictGet m k₂ := by
  induction m with
  | nil => simp [dictPut, dictGet, h]
  | cons p rest ih =>
    obtain ⟨k', v'⟩ := p
    by_cases hk : k' = k
    · subst hk
      simp [dictPut, dictGet, h]
    · simp [dictPut, dictGet, hk, ih]

theorem dictGet_dictDel_self {α : Type} (m : List (String × α)) (k : String) :
    dictGet (dictDel m k) k = none := by
  induction m with
  | nil => simp [dictDel, dictGet]
  | cons p rest ih =>
    obtain ⟨k', v'⟩ := p
    by_cases h : k' = k
    · simp [dictDel, h, ih]
    · simp [dictDel, dictGet, h, ih]

theorem mem_dictPut {α : Type} (m : List (String × α)) (k : String) (v : α)
    (q : String × α) (hq : q ∈ dictPut m k v) : q = (k, v) ∨ q ∈ m := by
  induction m with
  | nil =>
    simp [dictPut] at hq
    exact Or.inl hq
  | cons p rest ih =>
    obtain ⟨k', v'⟩ := p
    by_cases h : k' = k
    · subst h
      simp [dictPut] at hq
      rcases hq with h1 | h1
      · exact Or.inl h1
      · exact Or.inr (List.mem_cons_of_mem _ h1)
    · simp [dictPut, h] at hq
      rcases hq with h1 | h1
      · exact Or.inr (by simp [h1])
      · rcases ih h1 with h2 | h2
        · exact Or.inl h2
        · exact Or.inr (List.mem_cons_of_mem _ h2)

theorem mem_dictDel {α : Type} (m : List (String × α)) (k : String)
    (q : String × α) (hq : q ∈ dictDel m k) : q ∈ m := by
  induction m with
  | nil => simp [dictDel] at hq
  | cons p rest ih =>
    obtain ⟨k', v'⟩ := p
    by_cases h : k' = k
    · simp [dictDel, h] at hq
      exact List.mem_cons_of_mem _ (ih hq)
    · simp [dictDel, h] at hq
      rcases hq with h1 | h1
      · simp [h1]
      · exact List.mem_cons_of_mem _ (ih h1)

/-- `BookingBot.add_log_entry` (src/main.py lines 75-91): append one entry to
`self.logs`.  The timestamp produced by `datetime.now()` is the explicit
argument `ts`; `save_logs` is file I/O and does not touch the in-memory state. -/
def add_log_entry (st : BotState) (user_id username full_name change : String)
    (total : Int) (status : String) (ts : String) : BotState :=
  let entry : LogEntry :=
    { timestamp := ts, user_id := user_id, username := username,
      full_name := full_name, change := change, total := total, status := status }
  { st with logs := st.logs ++ [entry] }

/-- `BookingBot.process_booking` (lines 173-207): overwrite
`self.users_data[user_id]` with a fresh record (no `sets_before_cancel` key),
log `+{sets}` / `Booked`, and delete any pending session for the user. -/
def process_booking (st : BotState) (user_id username full_name : String)
    (sets : Int) (ts : String) : BotState :=
  let newRecord : BookingRecord :=
    { username := username, full_name := full_name, sets := sets,
      status := "active", sets_before_cancel := none }
  let st1 := { st with users_data := dictPut st.users_data user_id newRecord }
  let st2 := add_log_entry st1 user_id username full_name ("+" ++ toString sets) sets "Booked" ts
  { st2 with user_states := dictDel st2.user_states user_id }

/-- `BookingBot.book_command` (lines 142-171): with an integer argument,
reject `sets <= 0` and otherwise call `process_booking`; with a non-integer
argument reply with a format error (`ValueError` branch, no state change);
with no argument store a `booking` session and ask for the quantity. -/
def book_command (st : BotState) (user_id username full_name : String)
    (arg : ArgInput) (ts : String) : BotState × OpResult :=
  match arg with
  | ArgInput.value sets =>
      if sets ≤ 0 then (st, OpResult.validationError)
      else (process_booking st user_id username full_name sets ts, OpResult.ok)
  | ArgInput.invalid => (st, OpResult.parseError)
  | ArgInput.absent =>
      let sess : SessionState :=
        { action := "booking", username := username, full_name := full_name, sets := none }
      ({ st with user_states := dictPut st.user_states user_id sess }, OpResult.prompted)

/-- `BookingBot.process_edit_booking` (lines 266-316): read
`self.users_data[user_id]["sets"]` (a missing record raises `KeyError`, caught
at the router boundary with no mutation); reject when the new total would be
negative — note the early `return` skips the session deletion at lines
314-316, so the pending session survives a rejection; otherwise write the new
total, log the signed change / `Edited`, and delete the session. -/
def process_edit_booking (st : BotState) (user_id username full_name : String)
    (change : Int) (ts : String) : BotState × OpResult :=
  match dictGet st.users_data user_id with
  | none => (st, OpResult.internalError)
  | some current =>
    let new_total := current.sets + change
    if new_total < 0 then (st, OpResult.validationError)
    else
      let updated : BookingRecord := { current with sets := new_total }
      let st1 := { st with users_data := dictPut st.users_data user_id updated }
      let st2 := add_log_entry st1 user_id username full_name
          ((if change > 0 then "+" else "") ++ toString change) new_total "Edited" ts
      ({ st2 with user_states := dictDel st2.user_states user_id }, OpResult.ok)

/-- `BookingBot.edit_book_command` (lines 209-264): require an existing record
with `status == "active"`; with an integer argument call
`process_edit_booking`, with a non-integer argument reply with a format error,
and with no argument show the plus-minus keyboard and store an `editing`
session. -/
def edit_book_command (st : BotState) (user_id username full_name : String)
    (arg : ArgInput) (ts : String) : BotState × OpResult :=
  match dictGet st.users_data user_id with
  | none => (st, OpResult.preconditionError)
  | some r0 =>
    if r0.status ≠ "active" then (st, OpResult.preconditionError)
    else
      match arg with
      | ArgInput.value change => process_edit_booking st user_id username full_name change ts
      | ArgInput.invalid => (st, OpResult.parseError)
      | ArgInput.absent =>
          let sess : SessionState :=
            { action := "editing", username := username, full_name := full_name, sets := none }
          ({ st with user_states := dictPut st.user_states user_id sess }, OpResult.prompted)

/-- `BookingBot.cancel_booking_command` (lines 318-353): require an existing
record with `status == "active"`, then show the yes/no confirmation keyboard
and store a `cancelling` session carrying the current `sets`. -/
def cancel_booking_command (st : BotState) (user_id username full_name : String) :
    BotState × OpResult :=
  match dictGet st.users_data user_id with
  | none => (st, OpResult.preconditionError)
  | some r0 =>
    if r0.status ≠ "active" then (st, OpResult.preconditionError)
    else
      let sess : SessionState :=
        { action := "cancelling", username := username, full_name := full_name,
          sets := some r0.sets }
      ({ st with user_states := dictPut st.user_states user_id sess }, OpResult.prompted)

/-- `BookingBot.process_cancel_booking` (lines 477-516): set
`status = "cancelled"`, snapshot `sets_before_cancel`, zero `sets`, log
`-{previous sets}` / total 0 / `Cancelled`, and delete the session.  A missing
record raises `KeyError`, caught at the router with no mutation. -/
def process_cancel_booking (st : BotState) (user_id username full_name : String)
    (ts : String) : BotState × OpResult :=
  match dictGet st.users_data user_id with
  | none => (st, OpResult.internalError)
  | some current =>
    let updated : BookingRecord :=
      { current with
        status := "cancelled", sets_before_cancel := some current.sets, sets := 0 }
    let st1 := { st with users_data := dictPut st.users_data user_id updated }
    let st2 := add_log_entry st1 user_id username full_name
        ("-" ++ toString current.sets) 0 "Cancelled" ts
    ({ st2 with user_states := dictDel st2.user_states user_id }, OpResult.ok)

/-- The two-step cancel flow: `cancel_booking_command` followed by the user
pressing the `cancel_yes` button, which `button_callback` (lines 419-421)
routes to `process_cancel_booking` with the identity stored in the session
(the same `username` / `full_name` the command stored there). -/
def cancel_flow (st : BotState) (user_id username full_name ts : String) :
    BotState × OpResult :=
  match cancel_booking_command st user_id username full_name with
  | (st1, OpResult.prompted) => process_cancel_booking st1 user_id username full_name ts
  | other => other

/-- The `cancel_no` branch of `BookingBot.button_callback` (lines 395-427):
with no pending session the button replies "session expired" (lines 403-405);
otherwise the booking is kept and the session is deleted (lines 423-427). -/
def cancel_no_callback (st : BotState) (user_id : String) : BotState × OpResult :=
  match dictGet st.user_states user_id with
  | none => (st, OpResult.sessionExpired)
  | some _ => ({ st with user_states := dictDel st.user_states user_id }, OpResult.ok)

/-- Python's `self.admin_chat_id.replace('-', '')` (lines 360, 574, 602):
every `'-'` character of the configured admin chat id is removed. -/
def admin_id_normalized (admin_chat_id : String) : String :=
  String.mk (admin_chat_id.data.filter (fun c => c != '-'))

/-- Modelled from the spec: "caller's identifier must equal the configured
admin identifier (stripped of a leading separator character)" — strips one
leading `'-'` only, for comparison with the code's `admin_id_normalized`. -/
def strip_leading_dash (s : String) : String :=
  match s.data with
  | '-' :: rest => String.mk rest
  | _ => s

/-- Python's `str.lower()` as used on usernames in `send_message_command`. -/
def to_lower_str (s : String) : String :=
  String.mk (s.data.map Char.toLower)

/-- `BookingBot.summary_command` (lines 355-392): admin-only, read-only
projection over `self.users_data`; the rendered report is presentation, and
the state is returned unchanged on both branches. -/
def summary_command (st : BotState) (user_id admin_chat_id : String) : BotState × OpResult :=
  if user_id = admin_id_normalized admin_chat_id then (st, OpResult.ok)
  else (st, OpResult.authError)

/-- `BookingBot.reset_command` (lines 569-595): admin-only; shows the reset
confirmation keyboard and stores a `reset_confirmation` session (the Python
dict holds only the `action` key; the other fields are absent, modelled by
`""` / `none`). -/
def reset_command (st : BotState) (user_id admin_chat_id : String) : BotState × OpResult :=
  if user_id = admin_id_normalized admin_chat_id then
    let sess : SessionState :=
      { action := "reset_confirmation", username := "", full_name := "", sets := none }
    ({ st with user_states := dictPut st.user_states user_id sess }, OpResult.prompted)
  else (st, OpResult.authError)

/-- `BookingBot.reset_confirmation_callback` (lines 658-687): require a
pending `reset_confirmation` session; on `reset_confirm` wipe `users_data` and
`logs`; on `reset_cancel` leave them; in both branches delete the session. -/
def reset_confirmation_callback (st : BotState) (user_id : String) (confirm : Bool) :
    BotState × OpResult :=
  match dictGet st.user_states user_id with
  | none => (st, OpResult.sessionExpired)
  | some sess =>
    if sess.action ≠ "reset_confirmation" then (st, OpResult.sessionExpired)
    else if confirm then
      ({ users_data := [], logs := [], user_states := dictDel st.user_states user_id },
       OpResult.ok)
    else
      ({ st with user_states := dictDel st.user_states user_id }, OpResult.ok)

/-- `BookingBot.send_message_command` (lines 597-649): admin-only; requires a
target username and a message; finds the first record whose stored username
(non-empty, lowercased) equals the lowercased target and sends the message to
that user (delivery is I/O); `self.users_data`, `self.logs` and
`self.user_states` are never written on any branch. -/
def send_message_command (st : BotState) (caller_id admin_chat_id : String)
    (args : List String) : BotState × OpResult :=
  if caller_id = admin_id_normalized admin_chat_id then
    if args.length < 2 then (st, OpResult.validationError)
    else
      let target := to_lower_str (args.headD "")
      match st.users_data.find?
          (fun p => (p.2.username != "") && (to_lower_str p.2.username == target)) with
      | some _ => (st, OpResult.ok)
      | none => (st, OpResult.notFound)
  else (st, OpResult.authError)

/-- `BookingBot.handle_text_message` (lines 518-559): resume the pending
session for the user; a `booking` session parses the text as the quantity
(rejecting non-positive input with no state change) and calls
`process_booking` with the identity stored in the session; an `editing`
session parses the text as the delta and calls `process_edit_booking`; any
other session action falls through with no effect.  `text` is the parsed
integer of the stripped message text (`none` when `int(...)` raises
`ValueError`). -/
def handle_text_message (st : BotState) (user_id : String) (text : Option Int)
    (ts : String) : BotState × OpResult :=
  match dictGet st.user_states user_id with
  | none => (st, OpResult.sessionExpired)
  | some sess =>
    if sess.action = "booking" then
      match text with
      | none => (st, OpResult.parseError)
      | some sets =>
        if sets ≤ 0 then (st, OpResult.validationError)
        else (process_booking st user_id sess.username sess.full_name sets ts, OpResult.ok)
    else if sess.action = "editing" then
      match text with
      | none => (st, OpResult.parseError)
      | some change => process_edit_booking st user_id sess.username sess.full_name change ts
    else (st, OpResult.ignored)

/-- One inbound user-level operation of the booking state machine, routed
exactly as the command handlers route it. -/
inductive Op where
  /-- `/book n` with an inline quantity -/
  | create (user_id username full_name : String) (sets : Int) (ts : String)
  /-- `/edit_book d` with an inline delta -/
  | edit (user_id username full_name : String) (delta : Int) (ts : String)
  /-- `/cancel_booking` followed by pressing the `cancel_yes` button -/
  | cancel (user_id username full_name ts : String)
  /-- `/reset` followed by pressing the `reset_confirm` button -/
  | resetAll (caller_id admin_chat_id : String)
deriving Repr, DecidableEq

/-- `true` unless the operation is a `create` with a non-positive quantity. -/
def create_positive (op : Op) : Bool :=
  match op with
  | Op.create _ _ _ n _ => 0 < n
  | _ => true

/-- Run one operation through the corresponding command handler(s),
keeping the resulting state. -/
def step (st : BotState) (op : Op) : BotState :=
  match op with
  | Op.create uid un fn n ts => (book_command st uid un fn (ArgInput.value n) ts).1
  | Op.edit uid un fn d ts => (edit_book_command st uid un fn (ArgInput.value d) ts).1
  | Op.cancel uid un fn ts => (cancel_flow st uid un fn ts).1
  | Op.resetAll caller admin =>
    match reset_command st caller admin with
    | (st1, OpResult.prompted) => (reset_confirmation_callback st1 caller true).1
    | (st1, _) => st1

/-- The freshly started bot with no stored data (`load_data` / `load_logs`
returning the defaults and an empty session map). -/
def initialState : BotState :=
  { users_data := [], logs := [], user_states := [] }

/-- Run a sequence of operations from the empty store. -/
def runOps (ops : List Op) : BotState :=
  ops.foldl step initialState

/-- The per-record invariant of the spec data model: `sets >= 0` and a
cancelled record holds zero sets. -/
def RecordOk (r : BookingRecord) : Prop :=
  0 ≤ r.sets ∧ (r.status = "cancelled" → r.sets = 0)

/-- Every record of the store satisfies `RecordOk`. -/
def StoreOk (store : List (String × BookingRecord)) : Prop :=
  ∀ p ∈ store, RecordOk p.2

theorem storeOk_dictPut (store : List (String × BookingRecord)) (k : String)
    (r : BookingRecord) (hs : StoreOk store) (hr : RecordOk r) :
    StoreOk (dictPut store k r) := by
  intro p hp
  rcases mem_dictPut store k r p hp with h | h
  · rw [h]
    exact hr
  · exact hs p h

theorem storeOk_book (st : BotState) (uid un fn : String) (a : ArgInput) (ts : String)
    (h : StoreOk st.users_data) :
    StoreOk (book_command st uid un fn a ts).1.users_data := by
  cases a with
  | absent => simpa [book_command] using h
  | invalid => simpa [book_command] using h
  | value n =>
    by_cases hn : n ≤ 0
    · simpa [book_command, hn] using h
    · simp only [book_command, hn, if_false, process_booking, add_log_entry]
      refine storeOk_dictPut _ _ _ h ⟨?_, ?_⟩
      · show (0 : Int) ≤ n
        omega
      · intro hc
        have hcc : ("active" : String) = "cancelled" := hc
        exact absurd hcc (by decide)

theorem storeOk_edit (st : BotState) (uid un fn : String) (a : ArgInput) (ts : String)
    (h : StoreOk st.users_data) :
    StoreOk (edit_book_command st uid un fn a ts).1.users_data := by
  cases hg : dictGet st.users_data uid with
  | none => simpa [edit_book_command, hg] using h
  | some r0 =>
    by_cases hst : r0.status ≠ "active"
    · simpa [edit_book_command, hg, hst] using h
    · cases a with
      | absent => simpa [edit_book_command, hg, hst] using h
      | invalid => simpa [edit_book_command, hg, hst] using h
      | value d =>
        rw [not_not] at hst
        by_cases hneg : r0.sets + d < 0
        · simpa [edit_book_command, hg, hst, process_edit_booking, hneg] using h
        · simp only [edit_book_command, hg, hst, process_edit_booking, if_neg hneg,
            add_log_entry, ne_eq, not_true_eq_false, if_false]
          refine storeOk_dictPut _ _ _ h ⟨?_, ?_⟩
          · show 0 ≤ r0.sets + d
            omega
          · intro hc
            have hcc : ("active" : String) = "cancelled" := hc
            exact absurd hcc (by decide)

theorem storeOk_cancel (st : BotState) (uid un fn ts : String)
    (h : StoreOk st.users_data) :
    StoreOk (cancel_flow st uid un fn ts).1.users_data := by
  cases hg : dictGet st.users_data uid with
  | none => simpa [cancel_flow, cancel_booking_command, hg] using h
  | some r0 =>
    by_cases hst : r0.status ≠ "active"
    · simpa [cancel_flow, cancel_booking_command, hg, hst] using h
    · rw [not_not] at hst
      simp only [cancel_flow, cancel_booking_command, hg, hst, ne_eq, not_true_eq_false,
        if_false, process_cancel_booking, add_log_entry]
      exact storeOk_dictPut _ _ _ h ⟨le_refl 0, fun _ => rfl⟩

theorem storeOk_reset (st : BotState) (caller admin : String)
    (h : StoreOk st.users_data) :
    StoreOk (step st (Op.resetAll caller admin)).users_data := by
  by_cases ha : caller = admin_id_normalized admin
  · simp only [step, reset_command, ha, if_true, reset_confirmation_callback,
      dictGet_dictPut_self]
    simp only [ne_eq, not_true_eq_false, if_false, if_true]
    intro p hp
    simp at hp
  · simpa [step, reset_command, ha] using h

theorem storeOk_step (st : BotState) (op : Op) (h : StoreOk st.users_data) :
    StoreOk (step st op).users_data := by
  cases op with
  | create uid un fn n ts => exact storeOk_book st uid un fn (ArgInput.value n) ts h
  | edit uid un fn d ts => exact storeOk_edit st uid un fn (ArgInput.value d) ts h
  | cancel uid un fn ts => exact storeOk_cancel st uid un fn ts h
  | resetAll caller admin => exact storeOk_reset st caller admin h

theorem storeOk_foldl (ops : List Op) (st : BotState) (h : StoreOk st.users_data) :
    StoreOk (ops.foldl step st).users_data := by
  induction ops generalizing st with
  | nil => exact h
  | cons op rest ih => exact ih (step st op) (storeOk_step st op h)

/-- Claim C1: for every user whose record is active with `s` sets and every
delta `d` with `s + d < 0`, the edit is rejected as a validation error and no
mutation occurs: the whole state (record store, log, session map) is returned
unchanged, both for the inline-argument entry path and for the shared
`process_edit_booking` operation itself. -/
theorem C1_edit_reject_no_mutation (st : BotState) (uid un fn ts : String)
    (r : BookingRecord) (d : Int)
    (hr : dictGet st.users_data uid = some r) (ha : r.status = "active")
    (hneg : r.sets + d < 0) :
    edit_book_command st uid un fn (ArgInput.value d) ts = (st, OpResult.validationError) ∧
    process_edit_booking st uid un fn d ts = (st, OpResult.validationError) := by
  constructor
  · simp [edit_book_command, hr, ha, process_edit_booking, hneg]
  · simp [process_edit_booking, hr, hneg]

def rW1 : BookingRecord :=
  { username := "@a", full_name := "A", sets := 1, status := "active",
    sets_before_cancel := none }

def stW1 : BotState :=
  { users_data := [("u1", rW1)], logs := [], user_states := [] }

theorem C1_edit_reject_no_mutation_witness :
    dictGet stW1.users_data "u1" = some rW1 ∧ rW1.status = "active" ∧
    rW1.sets + (-5) < 0 ∧
    (edit_book_command stW1 "u1" "@a" "A" (ArgInput.value (-5)) "t1" =
       (stW1, OpResult.validationError) ∧
     process_edit_booking stW1 "u1" "@a" "A" (-5) "t1" =
       (stW1, OpResult.validationError)) :=
  ⟨by decide, by decide, by decide,
   C1_edit_reject_no_mutation stW1 "u1" "@a" "A" "t1" rW1 (-5)
     (by decide) (by decide) (by decide)⟩

/-- Claim C2: for every sequence of create (with positive quantity), edit,
cancel and reset-all operations starting from the empty store, every record
in the store has `sets >= 0`, and every cancelled record has `sets == 0`. -/
theorem C2_sets_invariant (ops : List Op)
    (_hpos : ∀ op ∈ ops, create_positive op = true) :
    StoreOk (runOps ops).users_data :=
  storeOk_foldl ops initialState (by intro p hp; simp [initialState] at hp)

def opsW2 : List Op :=
  [Op.create "u1" "@a" "A" 5 "t1", Op.edit "u1" "@a" "A" (-2) "t2",
   Op.cancel "u1" "@a" "A" "t3", Op.create "u2" "@b" "B" 3 "t4",
   Op.resetAll "9" "-9"]

theorem C2_sets_invariant_witness :
    (∀ op ∈ opsW2, create_positive op = true) ∧ StoreOk (runOps opsW2).users_data :=
  ⟨by decide, C2_sets_invariant opsW2 (by decide)⟩

/-- Claim C3: every successful mutating operation (create, edit, cancel)
appends exactly one log entry, and that entry's `total` equals the mutated
record's `sets` immediately afterwards (create: the booked quantity; edit:
`current.sets + delta`; cancel: `0`). -/
theorem C3_one_log_entry (st : BotState) (uid un fn ts : String) (n d : Int) :
    ((book_command st uid un fn (ArgInput.value n) ts).2 = OpResult.ok →
      ∃ e, (book_command st uid un fn (ArgInput.value n) ts).1.logs = st.logs ++ [e] ∧
        e.total = n ∧
        (dictGet (book_command st uid un fn (ArgInput.value n) ts).1.users_data uid).map
          BookingRecord.sets = some e.total) ∧
    (∀ r, dictGet st.users_data uid = some r →
      (edit_book_command st uid un fn (ArgInput.value d) ts).2 = OpResult.ok →
      ∃ e, (edit_book_command st uid un fn (ArgInput.value d) ts).1.logs = st.logs ++ [e] ∧
        e.total = r.sets + d ∧
        (dictGet (edit_book_command st uid un fn (ArgInput.value d) ts).1.users_data uid).map
          BookingRecord.sets = some e.total) ∧
    ((cancel_flow st uid un fn ts).2 = OpResult.ok →
      ∃ e, (cancel_flow st uid un fn ts).1.logs = st.logs ++ [e] ∧
        e.total = 0 ∧
        (dictGet (cancel_flow st uid un fn ts).1.users_data uid).map
          BookingRecord.sets = some e.total) := by
  refine ⟨?_, ?_, ?_⟩
  · intro hok
    by_cases hn : n ≤ 0
    · simp [book_command, hn] at hok
    · refine ⟨{ timestamp := ts, user_id := uid, username := un, full_name := fn,
                change := "+" ++ toString n, total := n, status := "Booked" }, ?_, rfl, ?_⟩
      · simp [book_command, hn, process_booking, add_log_entry]
      · simp [book_command, hn, process_booking, add_log_entry, dictGet_dictPut_self]
  · intro r hr hok
    by_cases hst : r.status ≠ "active"
    · simp [edit_book_command, hr, hst] at hok
    · rw [not_not] at hst
      by_cases hneg : r.sets + d < 0
      · simp [edit_book_command, hr, hst, process_edit_booking, hneg] at hok
      · refine ⟨{ timestamp := ts, user_id := uid, username := un, full_name := fn,
                  change := (if d > 0 then "+" else "") ++ toString d, total := r.sets + d,
                  status := "Edited" }, ?_, rfl, ?_⟩
        · simp [edit_book_command, hr, hst, process_edit_booking, hneg, add_log_entry]
        · simp [edit_book_command, hr, hst, process_edit_booking, hneg, add_log_entry,
            dictGet_dictPut_self]
  · intro hok
    cases hg : dictGet st.users_data uid with
    | none => simp [cancel_flow, cancel_booking_command, hg] at hok
    | some r0 =>
      by_cases hst : r0.status ≠ "active"
      · simp [cancel_flow, cancel_booking_command, hg, hst] at hok
      · rw [not_not] at hst
        refine ⟨{ timestamp := ts, user_id := uid, username := un, full_name := fn,
                  change := "-" ++ toString r0.sets, total := 0, status := "Cancelled" },
                ?_, rfl, ?_⟩
        · simp [cancel_flow, cancel_booking_command, hg, hst, process_cancel_booking,
            add_log_entry]
        · simp [cancel_flow, cancel_booking_command, hg, hst, process_cancel_booking,
            add_log_entry, dictGet_dictPut_self]

def rW3 : BookingRecord :=
  { username := "@c", full_name := "C", sets := 4, status := "active",
    sets_before_cancel := none }

def stW3 : BotState :=
  { users_data := [("u3", rW3)], logs := [], user_states := [] }

theorem C3_one_log_entry_witness :
    ((book_command stW3 "u3" "@c" "C" (ArgInput.value 2) "t1").2 = OpResult.ok ∧
     dictGet stW3.users_data "u3" = some rW3 ∧
     (edit_book_command stW3 "u3" "@c" "C" (ArgInput.value (-1)) "t1").2 = OpResult.ok ∧
     (cancel_flow stW3 "u3" "@c" "C" "t1").2 = OpResult.ok) ∧
    ((∃ e, (book_command stW3 "u3" "@c" "C" (ArgInput.value 2) "t1").1.logs =
        stW3.logs ++ [e] ∧ e.total = 2 ∧
        (dictGet (book_command stW3 "u3" "@c" "C" (ArgInput.value 2) "t1").1.users_data
          "u3").map BookingRecord.sets = some e.total) ∧
     (∃ e, (edit_book_command stW3 "u3" "@c" "C" (ArgInput.value (-1)) "t1").1.logs =
        stW3.logs ++ [e] ∧ e.total = rW3.sets + (-1) ∧
        (dictGet (edit_book_command stW3 "u3" "@c" "C" (ArgInput.value (-1)) "t1").1.users_data
          "u3").map BookingRecord.sets = some e.total) ∧
     (∃ e, (cancel_flow stW3 "u3" "@c" "C" "t1").1.logs = stW3.logs ++ [e] ∧
        e.total = 0 ∧
        (dictGet (cancel_flow stW3 "u3" "@c" "C" "t1").1.users_data "u3").map
          BookingRecord.sets = some e.total)) := by
  have h := C3_one_log_entry stW3 "u3" "@c" "C" "t1" 2 (-1)
  exact ⟨⟨by decide, by decide, by decide, by decide⟩,
    h.1 (by decide), h.2.1 rW3 (by decide) (by decide), h.2.2 (by decide)⟩

/-- Claim C4: cancelling a user whose record is active with `s` sets marks the
record cancelled with `sets_before_cancel = s` and `sets = 0`, and appends one
log entry with change `-s`, total `0` and status `Cancelled`. -/
theorem C4_cancel_semantics (st : BotState) (uid un fn ts : String) (r : BookingRecord)
    (hr : dictGet st.users_data uid = some r) (ha : r.status = "active") :
    (cancel_flow st uid un fn ts).2 = OpResult.ok ∧
    dictGet (cancel_flow st uid un fn ts).1.users_data uid =
      some { r with status := "cancelled", sets_before_cancel := some r.sets, sets := 0 } ∧
    (cancel_flow st uid un fn ts).1.logs =
      st.logs ++ [{ timestamp := ts, user_id := uid, username := un, full_name := fn,
                    change := "-" ++ toString r.sets, total := 0, status := "Cancelled" }] := by
  refine ⟨?_, ?_, ?_⟩ <;>
    simp [cancel_flow, cancel_booking_command, hr, ha, process_cancel_booking,
      add_log_entry, dictGet_dictPut_self]

def rW4 : BookingRecord :=
  { username := "@d", full_name := "D", sets := 3, status := "active",
    sets_before_cancel := none }

def stW4 : BotState :=
  { users_data := [("u4", rW4)], logs := [], user_states := [] }

theorem C4_cancel_semantics_witness :
    (dictGet stW4.users_data "u4" = some rW4 ∧ rW4.status = "active") ∧
    ((cancel_flow stW4 "u4" "@d" "D" "t1").2 = OpResult.ok ∧
     dictGet (cancel_flow stW4 "u4" "@d" "D" "t1").1.users_data "u4" =
       some { rW4 with
              status := "cancelled", sets_before_cancel := some rW4.sets, sets := 0 } ∧
     (cancel_flow stW4 "u4" "@d" "D" "t1").1.logs =
       stW4.logs ++ [{ timestamp := "t1", user_id := "u4", username := "@d",
                       full_name := "D", change := "-" ++ toString rW4.sets, total := 0,
                       status := "Cancelled" }]) :=
  ⟨⟨by decide, by decide⟩,
   C4_cancel_semantics stW4 "u4" "@d" "D" "t1" rW4 (by decide) (by decide)⟩

/-- Claim C5: through both entry paths (inline `/book n` argument and the
free-text follow-up of a `booking` session), a non-positive quantity is
rejected as a validation error with no state change (so no record is created),
while a positive quantity stores a fresh active record with that quantity and
appends one `+n` / `Booked` log entry. -/
theorem C5_create_validation (st : BotState) (uid un fn ts : String) (n : Int)
    (sess : SessionState) (hs : dictGet st.user_states uid = some sess)
    (hb : sess.action = "booking") :
    (n ≤ 0 →
      book_command st uid un fn (ArgInput.value n) ts = (st, OpResult.validationError) ∧
      handle_text_message st uid (some n) ts = (st, OpResult.validationError)) ∧
    (0 < n →
      ((book_command st uid un fn (ArgInput.value n) ts).2 = OpResult.ok ∧
       dictGet (book_command st uid un fn (ArgInput.value n) ts).1.users_data uid =
         some { username := un, full_name := fn, sets := n, status := "active",
                sets_before_cancel := none } ∧
       (book_command st uid un fn (ArgInput.value n) ts).1.logs =
         st.logs ++ [{ timestamp := ts, user_id := uid, username := un, full_name := fn,
                       change := "+" ++ toString n, total := n, status := "Booked" }]) ∧
      ((handle_text_message st uid (some n) ts).2 = OpResult.ok ∧
       dictGet (handle_text_message st uid (some n) ts).1.users_data uid =
         some { username := sess.username, full_name := sess.full_name, sets := n,
                status := "active", sets_before_cancel := none } ∧
       (handle_text_message st uid (some n) ts).1.logs =
         st.logs ++ [{ timestamp := ts, user_id := uid, username := sess.username,
                       full_name := sess.full_name, change := "+" ++ toString n,
                       total := n, status := "Booked" }])) := by
  constructor
  · intro hn
    constructor
    · simp [book_command, hn]
    · simp [handle_text_message, hs, hb, hn]
  · intro hn
    have hn' : ¬n ≤ 0 := not_le.mpr hn
    constructor
    · refine ⟨?_, ?_, ?_⟩ <;>
        simp [book_command, hn', process_booking, add_log_entry, dictGet_dictPut_self]
    · refine ⟨?_, ?_, ?_⟩ <;>
        simp [handle_text_message, hs, hb, hn', process_booking, add_log_entry,
          dictGet_dictPut_self]

def sessW5 : SessionState :=
  { action := "booking", username := "@e", full_name := "E", sets := none }

def stW5 : BotState :=
  { users_data := [], logs := [], user_states := [("u5", sessW5)] }

theorem C5_create_validation_witness :
    (dictGet stW5.user_states "u5" = some sessW5 ∧ sessW5.action = "booking") ∧
    (book_command stW5 "u5" "@e" "E" (ArgInput.value 0) "t1" =
       (stW5, OpResult.validationError) ∧
     handle_text_message stW5 "u5" (some 0) "t1" = (stW5, OpResult.validationError)) :=
  ⟨⟨by decide, by decide⟩,
   (C5_create_validation stW5 "u5" "@e" "E" "t1" 0 sessW5 (by decide) (by decide)).1
     (by decide)⟩

/-- Claim C6 counterexample: the code's admin check strips every separator
character from the configured admin id (`str.replace`), not only a leading
one.  With admin id `"1-2"` the caller `"12"` is accepted by `summary_command`
although it differs from `"1-2"` with only a leading `'-'` removed, so the
claimed if-and-only-if characterisation fails at this input. -/
theorem C6_admin_check_counterexample :
    (summary_command initialState "12" "1-2").2 = OpResult.ok ∧
    strip_leading_dash "1-2" = "1-2" ∧ "12" ≠ strip_leading_dash "1-2" := by
  decide

/-- Claim C6 (amended): the admin check for summary, reset and send-message
accepts the caller if and only if the caller's identifier equals the
configured admin identifier with every separator character `'-'` removed. -/
theorem C6_admin_check_amended (st : BotState) (caller admin : String)
    (args : List String) :
    ((summary_command st caller admin).2 ≠ OpResult.authError ↔
       caller = admin_id_normalized admin) ∧
    ((reset_command st caller admin).2 ≠ OpResult.authError ↔
       caller = admin_id_normalized admin) ∧
    ((send_message_command st caller admin args).2 ≠ OpResult.authError ↔
       caller = admin_id_normalized admin) := by
  by_cases h : caller = admin_id_normalized admin
  · refine ⟨?_, ?_, ?_⟩
    · simp [summary_command, h]
    · simp [reset_command, h]
    · simp only [send_message_command, if_pos h]
      constructor
      · intro _
        exact h
      · intro _
        by_cases hl : args.length < 2
        · simp [hl]
        · simp only [if_neg hl]
          cases hfind : List.find?
              (fun p => (p.2.username != "") && (to_lower_str p.2.username ==
                to_lower_str (args.headD ""))) st.users_data with
          | none => simp [hfind]
          | some q => simp [hfind]
  · refine ⟨?_, ?_, ?_⟩ <;>
      simp [summary_command, reset_command, send_message_command, h]

/-- Claim C7: a caller that fails the admin check is rejected with an
authorization error by summary, reset and send-message, and the whole state
(record store, log, session map) is returned unchanged. -/
theorem C7_nonadmin_no_state_change (st : BotState) (caller admin : String)
    (args : List String) (h : caller ≠ admin_id_normalized admin) :
    summary_command st caller admin = (st, OpResult.authError) ∧
    reset_command st caller admin = (st, OpResult.authError) ∧
    send_message_command st caller admin args = (st, OpResult.authError) := by
  refine ⟨?_, ?_, ?_⟩ <;>
    simp [summary_command, reset_command, send_message_command, h]

def stW7 : BotState :=
  { users_data := [], logs := [], user_states := [] }

theorem C7_nonadmin_no_state_change_witness :
    "u7" ≠ admin_id_normalized "-9" ∧
    (summary_command stW7 "u7" "-9" = (stW7, OpResult.authError) ∧
     reset_command stW7 "u7" "-9" = (stW7, OpResult.authError) ∧
     send_message_command stW7 "u7" "-9" ["@x", "hi"] = (stW7, OpResult.authError)) :=
  ⟨by decide, C7_nonadmin_no_state_change stW7 "u7" "-9" ["@x", "hi"] (by decide)⟩

def rW8 : BookingRecord :=
  { username := "@h", full_name := "H", sets := 1, status := "active",
    sets_before_cancel := none }

def sessW8 : SessionState :=
  { action := "editing", username := "@h", full_name := "H", sets := none }

def stW8 : BotState :=
  { users_data := [("u8", rW8)], logs := [], user_states := [("u8", sessW8)] }

/-- Claim C8 counterexample: a user with a pending `editing` session whose
follow-up delta is rejected because the new total would be negative still has
a session entry afterwards — the early `return` in `process_edit_booking`
skips the session deletion, so the claim that the session is deleted on
rejection fails at this input. -/
theorem C8_session_counterexample :
    (handle_text_message stW8 "u8" (some (-5)) "t1").2 = OpResult.validationError ∧
    dictGet (handle_text_message stW8 "u8" (some (-5)) "t1").1.user_states "u8" =
      some sessW8 := by
  decide

/-- Claim C8 (amended): for every user with a pending session, the session
entry is deleted whenever the pending interaction completes — a `booking`
session supplied with a positive quantity, an `editing` session supplied with
a delta that keeps the total non-negative, a `cancelling` session confirmed
(`cancel_yes` ran on a stored record) or declined (`cancel_no`), and a
`reset_confirmation` session answered either way; but when a two-step edit's
follow-up delta is rejected because the new total would be negative the whole
state — the session entry included — is left unchanged. -/
theorem C8_session_lifecycle_amended (st : BotState) (uid ts : String)
    (sess : SessionState) (hs : dictGet st.user_states uid = some sess) :
    (∀ n : Int, sess.action = "booking" → 0 < n →
      dictGet (handle_text_message st uid (some n) ts).1.user_states uid = none) ∧
    (∀ (r : BookingRecord) (d : Int), sess.action = "editing" →
      dictGet st.users_data uid = some r →
      (0 ≤ r.sets + d →
        dictGet (handle_text_message st uid (some d) ts).1.user_states uid = none) ∧
      (r.sets + d < 0 →
        handle_text_message st uid (some d) ts = (st, OpResult.validationError))) ∧
    (∀ (un fn : String) (r : BookingRecord), sess.action = "cancelling" →
      dictGet st.users_data uid = some r →
      dictGet (process_cancel_booking st uid un fn ts).1.user_states uid = none) ∧
    dictGet (cancel_no_callback st uid).1.user_states uid = none ∧
    (∀ confirm : Bool, sess.action = "reset_confirmation" →
      dictGet (reset_confirmation_callback st uid confirm).1.user_states uid = none) := by
  refine ⟨?_, ?_, ?_, ?_, ?_⟩
  · intro n hbk hn
    simp [handle_text_message, hs, hbk, not_le.mpr hn, process_booking, add_log_entry,
      dictGet_dictDel_self]
  · intro r d he hr
    have hb : sess.action ≠ "booking" := by
      rw [he]
      decide
    constructor
    · intro hnn
      simp [handle_text_message, hs, hb, he, process_edit_booking, hr, not_lt.mpr hnn,
        add_log_entry, dictGet_dictDel_self]
    · intro hneg
      simp [handle_text_message, hs, hb, he, process_edit_booking, hr, hneg]
  · intro un fn r _hc hr
    simp [process_cancel_booking, hr, add_log_entry, dictGet_dictDel_self]
  · simp [cancel_no_callback, hs, dictGet_dictDel_self]
  · intro confirm hrc
    cases confirm <;>
      simp [reset_confirmation_callback, hs, hrc, dictGet_dictDel_self]

theorem C8_session_lifecycle_amended_witness :
    (dictGet stW8.user_states "u8" = some sessW8 ∧ sessW8.action = "editing" ∧
     dictGet stW8.users_data "u8" = some rW8) ∧
    rW8.sets + (-5) < 0 ∧
    handle_text_message stW8 "u8" (some (-5)) "t1" = (stW8, OpResult.validationError) ∧
    dictGet (cancel_no_callback stW8 "u8").1.user_states "u8" = none :=
  ⟨⟨by decide, by decide, by decide⟩, by decide,
   ((C8_session_lifecycle_amended stW8 "u8" "t1" sessW8 (by decide)).2.1 rW8 (-5)
     (by decide) (by decide)).2 (by decide),
   (C8_session_lifecycle_amended stW8 "u8" "t1" sessW8 (by decide)).2.2.2.1⟩

/-- Claim C9: a successful booking by a user who already has a record (active
or cancelled) replaces the whole record by a fresh one — `sets` becomes
exactly the requested quantity, any `sets_before_cancel` snapshot is dropped,
the status is active again, and the log entry records `+n` regardless of the
previous quantity. -/
theorem C9_rebook_replaces_record (st : BotState) (uid un fn ts : String) (n : Int)
    (r : BookingRecord) (_hr : dictGet st.users_data uid = some r) (hn : 0 < n) :
    (book_command st uid un fn (ArgInput.value n) ts).2 = OpResult.ok ∧
    dictGet (book_command st uid un fn (ArgInput.value n) ts).1.users_data uid =
      some { username := un, full_name := fn, sets := n, status := "active",
             sets_before_cancel := none } ∧
    (book_command st uid un fn (ArgInput.value n) ts).1.logs =
      st.logs ++ [{ timestamp := ts, user_id := uid, username := un, full_name := fn,
                    change := "+" ++ toString n, total := n, status := "Booked" }] := by
  have hn' : ¬n ≤ 0 := not_le.mpr hn
  refine ⟨?_, ?_, ?_⟩ <;>
    simp [book_command, hn', process_booking, add_log_entry, dictGet_dictPut_self]

def rW9 : BookingRecord :=
  { username := "@i", full_name := "I", sets := 0, status := "cancelled",
    sets_before_cancel := some 7 }

def stW9 : BotState :=
  { users_data := [("u9", rW9)], logs := [], user_states := [] }

theorem C9_rebook_replaces_record_witness :
    (dictGet stW9.users_data "u9" = some rW9 ∧ (0 : Int) < 2) ∧
    ((book_command stW9 "u9" "@i" "I" (ArgInput.value 2) "t1").2 = OpResult.ok ∧
     dictGet (book_command stW9 "u9" "@i" "I" (ArgInput.value 2) "t1").1.users_data "u9" =
       some { username := "@i", full_name := "I", sets := 2, status := "active",
              sets_before_cancel := none } ∧
     (book_command stW9 "u9" "@i" "I" (ArgInput.value 2) "t1").1.logs =
       stW9.logs ++ [{ timestamp := "t1", user_id := "u9", username := "@i",
                       full_name := "I", change := "+" ++ toString (2 : Int), total := 2,
                       status := "Booked" }]) :=
  ⟨⟨by decide, by decide⟩,
   C9_rebook_replaces_record stW9 "u9" "@i" "I" "t1" 2 rW9 (by decide) (by decide)⟩

/-- Claim C10: editing an active record with `s` sets by the delta `-s`
succeeds: the record keeps status active with `sets = 0` (it is not
automatically cancelled), one log entry with total `0` and status `Edited` is
appended, and the zero-sets active record can still be edited (any
non-negative delta succeeds) or cancelled (the cancel command prompts for
confirmation instead of rejecting) afterwards. -/
theorem C10_edit_to_zero_stays_active (st : BotState) (uid un fn ts : String)
    (r : BookingRecord) (hr : dictGet st.users_data uid = some r)
    (ha : r.status = "active") :
    (edit_book_command st uid un fn (ArgInput.value (-r.sets)) ts).2 = OpResult.ok ∧
    dictGet (edit_book_command st uid un fn (ArgInput.value (-r.sets)) ts).1.users_data
      uid = some { r with sets := 0 } ∧
    (∃ e, (edit_book_command st uid un fn (ArgInput.value (-r.sets)) ts).1.logs =
      st.logs ++ [e] ∧ e.total = 0 ∧ e.status = "Edited") ∧
    (∀ un2 fn2 ts2 : String, ∀ d2 : Int, 0 ≤ d2 →
      (edit_book_command (edit_book_command st uid un fn (ArgInput.value (-r.sets)) ts).1
        uid un2 fn2 (ArgInput.value d2) ts2).2 = OpResult.ok) ∧
    (∀ un2 fn2 : String,
      (cancel_booking_command (edit_book_command st uid un fn (ArgInput.value (-r.sets))
        ts).1 uid un2 fn2).2 = OpResult.prompted) := by
  have h0 : r.sets + -r.sets = 0 := by omega
  have hlt : ¬r.sets + -r.sets < 0 := by omega
  refine ⟨?_, ?_, ?_, ?_, ?_⟩
  · simp [edit_book_command, hr, ha, process_edit_booking, hlt]
  · simp [edit_book_command, hr, ha, process_edit_booking, hlt, add_log_entry,
      dictGet_dictPut_self, h0]
  · refine ⟨{ timestamp := ts, user_id := uid, username := un, full_name := fn,
              change := (if -r.sets > 0 then "+" else "") ++ toString (-r.sets),
              total := r.sets + -r.sets, status := "Edited" }, ?_, h0, rfl⟩
    simp [edit_book_command, hr, ha, process_edit_booking, hlt, add_log_entry]
  · intro un2 fn2 ts2 d2 hd2
    have hlt2 : ¬d2 < 0 := not_lt.mpr hd2
    simp [edit_book_command, hr, ha, process_edit_booking, hlt, add_log_entry,
      dictGet_dictPut_self, h0, hlt2]
  · intro un2 fn2
    simp [edit_book_command, hr, ha, process_edit_booking, hlt, add_log_entry,
      dictGet_dictPut_self, h0, cancel_booking_command]

def rW10 : BookingRecord :=
  { username := "@j", full_name := "J", sets := 3, status := "active",
    sets_before_cancel := none }

def stW10 : BotState :=
  { users_data := [("u10", rW10)], logs := [], user_states := [] }

theorem C10_edit_to_zero_stays_active_witness :
    (dictGet stW10.users_data "u10" = some rW10 ∧ rW10.status = "active") ∧
    ((edit_book_command stW10 "u10" "@j" "J" (ArgInput.value (-rW10.sets)) "t1").2 =
       OpResult.ok ∧
     dictGet (edit_book_command stW10 "u10" "@j" "J" (ArgInput.value (-rW10.sets))
       "t1").1.users_data "u10" = some { rW10 with sets := 0 } ∧
     (∃ e, (edit_book_command stW10 "u10" "@j" "J" (ArgInput.value (-rW10.sets))
        "t1").1.logs = stW10.logs ++ [e] ∧ e.total = 0 ∧ e.status = "Edited") ∧
     (∀ un2 fn2 ts2 : String, ∀ d2 : Int, 0 ≤ d2 →
       (edit_book_command (edit_book_command stW10 "u10" "@j" "J"
         (ArgInput.value (-rW10.sets)) "t1").1 "u10" un2 fn2
         (ArgInput.value d2) ts2).2 = OpResult.ok) ∧
     (∀ un2 fn2 : String,
       (cancel_booking_command (edit_book_command stW10 "u10" "@j" "J"
         (ArgInput.value (-rW10.sets)) "t1").1 "u10" un2 fn2).2 = OpResult.prompted)) :=
  ⟨⟨by decide, by decide⟩,
   C10_edit_to_zero_stays_active stW10 "u10" "@j" "J" "t1" rW10 (by decide) (by decide)⟩

end BookingBot
